import Mathlib

/-!
# Viewify-3D: the viewer state controller of src/screens/modal.jsx

The ModelViewer component keeps five pieces of React state (selectedModel,
isLoading, isPlaying, showInfo, modelError) and a ref to the model-viewer
element.  An effect keyed on selectedModel registers handleLoad and handleError
on that element and unregisters them in its cleanup.  This file embeds the state,
the event handlers and the carousel arithmetic as Lean functions, and states the
properties of the specification over them.

Conventions of the embedding:

* a JavaScript value that is a string or undefined is an Option String;
* the pair of listeners registered by one run of the effect is named by a
  natural number, the count of registrations made before it;
* a Renderer event is addressed to one such pair, and reaches the component
  only while that pair is still registered on the viewer;
* a call into the Renderer (play, pause) either returns or throws, which the
  caller of toggleAnimation supplies as a boolean;
* a re-render returns whenever models has a property for the selected value, which
  is so in every state the buttons of the component lead to; the render that
  throws is covered by render and selectAndRender.
-/

namespace Viewify

/-! ## Data model -/

/-- Value held in selectedModel: a key of the models object, or none for the
JavaScript value undefined (what modelKeys[i] yields outside the array). -/
abbrev ModelKey := Option String

/-- One entry of the models object (lines 12-31). -/
structure AssetDescriptor where
  model : String
  poster : String
  title : String
  description : String
deriving DecidableEq, Repr

/-- The models object of lines 12-31, as its entries in insertion order. -/
def models : List (String × AssetDescriptor) :=
  [ ("Astronaut",
      { model := "https://modelviewer.dev/shared-assets/models/Astronaut.glb",
        poster := "https://modelviewer.dev/assets/poster-astronaut.png",
        title := "Space Explorer",
        description := "A detailed astronaut model ready for space exploration missions." }),
    ("RobotExpressive",
      { model := "https://modelviewer.dev/shared-assets/models/RobotExpressive.glb",
        poster := "https://modelviewer.dev/assets/poster-robot.png",
        title := "Expressive Robot",
        description := "An animated robot with expressive features and smooth movements." }),
    ("Horse",
      { model := "https://modelviewer.dev/shared-assets/models/Horse.glb",
        poster := "https://modelviewer.dev/assets/poster-horse.png",
        title := "Majestic Horse",
        description := "A beautiful horse model with realistic proportions and textures." }) ]

/-- Object.keys(models) (line 100). -/
def modelKeys : List String := models.map Prod.fst

/-- Events the model-viewer element emits to its listeners (lines 61-62). -/
inductive RendererEvent where
  | load
  | error
deriving DecidableEq, Repr

/-- Methods of the model-viewer element the component calls (lines 82, 84, 95). -/
inductive RendererCommand where
  | play
  | pause
  | resetTurntableRotation
deriving DecidableEq, Repr

/-- State of one ModelViewer component instance: the five useState cells of
lines 5-9, whether modelViewerRef.current holds an element (line 10), and the
listener pair currently registered on that element by the effect of lines 47-68. -/
structure ViewerState where
  selectedModel : ModelKey
  isLoading : Bool
  isPlaying : Bool
  showInfo : Bool
  modelError : Bool
  viewer : Bool
  listeners : Option Nat
  registrations : Nat
deriving DecidableEq, Repr

/-- The useState initial values of lines 5-9, before the first commit: the ref is
still null and nothing is registered. -/
def initialState : ViewerState :=
  { selectedModel := some "Astronaut"
    isLoading := true
    isPlaying := false
    showInfo := false
    modelError := false
    viewer := false
    listeners := none
    registrations := 0 }

/-! ## The listener effect (lines 47-68) -/

/-- One run of the effect of lines 47-68: the cleanup returned by the previous run
removes its two listeners (lines 64-67); then, unless the ref is null (line 49), a
new pair handleLoad, handleError is registered (lines 61-62). -/
def runListenerEffect (s : ViewerState) : ViewerState :=
  let s1 := { s with listeners := none }
  if s1.viewer then
    { s1 with listeners := some s1.registrations, registrations := s1.registrations + 1 }
  else s1

/-- Effect phase of a re-render: the dependency array of line 68 is [selectedModel],
so the effect runs again only when selectedModel differs from its value at the
previous render. -/
def afterRender (prevSelected : ModelKey) (s : ViewerState) : ViewerState :=
  if s.selectedModel = prevSelected then s else runListenerEffect s

/-- First commit of the component: React stores the model-viewer element in the ref
and runs the effect of lines 47-68 once. -/
def mount (s : ViewerState) : ViewerState :=
  runListenerEffect { s with viewer := true }

/-- The component right after mounting. -/
def mounted : ViewerState := mount initialState

/-! ## Event handlers -/

/-- Function handleLoad of lines 51-54. -/
def handleLoad (s : ViewerState) : ViewerState :=
  { s with isLoading := false, modelError := false }

/-- Function handleError of lines 56-59. -/
def handleError (s : ViewerState) : ViewerState :=
  { s with isLoading := false, modelError := true }

/-- Delivery of a Renderer event addressed to the listener pair numbered
attachment: the handler runs if that pair is still registered (lines 61-62), and
nothing happens once the cleanup has removed it (lines 65-66). -/
def dispatch (ev : RendererEvent) (attachment : Nat) (s : ViewerState) : ViewerState :=
  if s.listeners = some attachment then
    match ev with
    | RendererEvent.load => handleLoad s
    | RendererEvent.error => handleError s
  else s

/-- Function handleModelSelect of lines 70-74: three state setters, no registry
lookup and no change of isPlaying. -/
def handleModelSelect (modelName : ModelKey) (s : ViewerState) : ViewerState :=
  { s with selectedModel := modelName, isLoading := true, modelError := false }

/-- One selection as the component goes through it: handleModelSelect, then the
effect phase of the re-render it causes.  The re-render is taken to return, which
it does whenever models has a property for the selected value; selectAndRender
below also covers the render that throws. -/
def selectAsset (modelName : ModelKey) (s : ViewerState) : ViewerState :=
  afterRender s.selectedModel (handleModelSelect modelName s)

/-- The Retry button of lines 235-240: handleModelSelect(selectedModel). -/
def retry (s : ViewerState) : ViewerState :=
  selectAsset s.selectedModel s

/-- What a handler that talks to the Renderer leaves behind: the new state, the
calls made on the viewer element, and the lines written with console.log. -/
structure Outcome where
  state : ViewerState
  forwarded : List RendererCommand
  console : List String
deriving DecidableEq, Repr

/-- A call of viewer.play() or viewer.pause(): it returns when the element accepts
the command and throws otherwise. -/
def rendererCall (accepts : Bool) (_cmd : RendererCommand) : Except String Unit :=
  if accepts then Except.ok () else Except.error "rejected"

/-- Function toggleAnimation of lines 76-90.  The try block calls pause or play
and then setIsPlaying(!isPlaying); the catch block only logs. -/
def toggleAnimation (accepts : Bool) (s : ViewerState) : Outcome :=
  if !s.viewer then { state := s, forwarded := [], console := [] }
  else
    let cmd := if s.isPlaying then RendererCommand.pause else RendererCommand.play
    let tryBlock : Except String ViewerState := do
      rendererCall accepts cmd
      pure { s with isPlaying := !s.isPlaying }
    match tryBlock with
    | Except.ok s1 => { state := s1, forwarded := [cmd], console := [] }
    | Except.error _ =>
      { state := s, forwarded := [cmd], console := ["Animation control not available"] }

/-- Function resetCamera of lines 92-97; hasReset tells whether the element has a
resetTurntableRotation member. -/
def resetCamera (hasReset : Bool) (s : ViewerState) : Outcome :=
  if s.viewer && hasReset then
    { state := s, forwarded := [RendererCommand.resetTurntableRotation], console := [] }
  else { state := s, forwarded := [], console := [] }

/-! ## Carousel arithmetic (lines 99-111) -/

/-- Property name a value is coerced to in models[selectedModel] (line 99). -/
def propertyName : ModelKey → String
  | some k => k
  | none => "undefined"

/-- What the property read models[name] of line 99 finds: the descriptor stored
under an own key; a value found further up the prototype chain (such as the
function under constructor), which is defined but has no title, description, model
or poster; or undefined. -/
inductive ModelsProperty where
  | descriptor (d : AssetDescriptor)
  | inherited
  | undefined
deriving DecidableEq, Repr

/-- Names of the properties every object literal inherits from Object.prototype in
current JavaScript engines; a sample for the parameter inheritedNames below. -/
def objectPrototypeNames : List String :=
  [ "constructor", "__defineGetter__", "__defineSetter__", "hasOwnProperty",
    "__lookupGetter__", "__lookupSetter__", "isPrototypeOf", "propertyIsEnumerable",
    "toString", "valueOf", "__proto__", "toLocaleString" ]

/-- Value currentModel of line 99: models[selectedModel].  The read looks among the
own keys of models first and then along the prototype chain; inheritedNames lists
the property names found there, which the JavaScript environment decides. -/
def currentModel (inheritedNames : List String) (s : ViewerState) : ModelsProperty :=
  match models.find? (fun e => e.1 == propertyName s.selectedModel) with
  | some e => ModelsProperty.descriptor e.2
  | none =>
    if propertyName s.selectedModel ∈ inheritedNames then ModelsProperty.inherited
    else ModelsProperty.undefined

/-- Exceptions a render of the component throws: a TypeError for reading the named
property of undefined. -/
inductive RenderError where
  | typeError (reading : String)
deriving DecidableEq, Repr

/-- What a render shows of the selected model: title and description (lines
213-214) and the src and poster given to the model-viewer element (lines 117-118);
none stands for undefined. -/
structure View where
  title : Option String
  description : Option String
  src : Option String
  poster : Option String
deriving DecidableEq, Repr

/-- The part of the render of lines 166-400 that reads currentModel.  The first
read is currentModel.title at line 213, which throws when currentModel is
undefined; an inherited value has none of the four properties. -/
def render (inheritedNames : List String) (s : ViewerState) : Except RenderError View :=
  match currentModel inheritedNames s with
  | ModelsProperty.undefined => Except.error (RenderError.typeError "title")
  | ModelsProperty.inherited =>
    Except.ok { title := none, description := none, src := none, poster := none }
  | ModelsProperty.descriptor d =>
    Except.ok { title := some d.title, description := some d.description,
                src := some d.model, poster := some d.poster }

/-- A call of handleModelSelect together with the re-render it causes.  When the
three setters change nothing, React does not render again.  Otherwise the component
function runs on the new state: if it throws, the exception leaves the component
and nothing is committed; if it returns, the effect phase follows. -/
def selectAndRender (inheritedNames : List String) (modelName : ModelKey)
    (s : ViewerState) : Except RenderError ViewerState :=
  if handleModelSelect modelName s = s then Except.ok s
  else
    match render inheritedNames (handleModelSelect modelName s) with
    | Except.error e => Except.error e
    | Except.ok _ => Except.ok (afterRender s.selectedModel (handleModelSelect modelName s))

/-- Value currentIndex of line 101: keys.indexOf(selectedModel), which is -1 when
the value is not an element of the array. -/
def currentIndex (keys : List String) (sel : ModelKey) : Int :=
  match sel with
  | some k => if k ∈ keys then (List.indexOf k keys : Int) else -1
  | none => -1

/-- Array read keys[i]: undefined outside the array. -/
def keyAt (keys : List String) (i : Int) : ModelKey :=
  if 0 ≤ i then keys[i.toNat]? else none

/-- Value nextIndex of line 104; the remainder operator of JavaScript truncates. -/
def nextIndex (keys : List String) (sel : ModelKey) : Int :=
  Int.tmod (currentIndex keys sel + 1) (keys.length : Int)

/-- Value prevIndex of line 109. -/
def prevIndex (keys : List String) (sel : ModelKey) : Int :=
  if currentIndex keys sel = 0 then (keys.length : Int) - 1 else currentIndex keys sel - 1

/-- Function nextModel of lines 103-106 over the key array keys. -/
def nextModel (keys : List String) (s : ViewerState) : ViewerState :=
  selectAsset (keyAt keys (nextIndex keys s.selectedModel)) s

/-- Function prevModel of lines 108-111 over the key array keys. -/
def prevModel (keys : List String) (s : ViewerState) : ViewerState :=
  selectAsset (keyAt keys (prevIndex keys s.selectedModel)) s

/-! ## Reading the flags as phases -/

/-- Load phases of the specification. -/
inductive LoadPhase where
  | Pending
  | Ready
  | Failed
deriving DecidableEq, Repr

/-- Animation phases of the specification. -/
inductive AnimationPhase where
  | Stopped
  | Playing
deriving DecidableEq, Repr

/-- Phase encoded by the flags isLoading and modelError; the combination with both
flags set encodes none. -/
def loadPhase (s : ViewerState) : Option LoadPhase :=
  match s.isLoading, s.modelError with
  | true, false => some LoadPhase.Pending
  | false, false => some LoadPhase.Ready
  | false, true => some LoadPhase.Failed
  | true, true => none

/-- Phase encoded by the flag isPlaying. -/
def animationPhase (s : ViewerState) : AnimationPhase :=
  if s.isPlaying then AnimationPhase.Playing else AnimationPhase.Stopped

/-- A registered listener pair was registered by an earlier run of the effect. -/
def WellFormed (s : ViewerState) : Prop :=
  ∀ g, s.listeners = some g → g < s.registrations

instance (s : ViewerState) : Decidable (WellFormed s) := by
  unfold WellFormed
  cases h : s.listeners with
  | none => exact isTrue (by intro g hg; cases hg)
  | some g0 =>
    by_cases hlt : g0 < s.registrations
    · exact isTrue (by intro g hg; cases hg; exact hlt)
    · exact isFalse (by intro hall; exact hlt (hall g0 rfl))

/-! ## Sample states and composed runs -/

/-- State after the error event of the first attachment: Astronaut selected,
loadPhase Failed, listener pair 0 registered. -/
def failedState : ViewerState := dispatch RendererEvent.error 0 mounted

/-- State after the load event of the first attachment: Astronaut selected,
loadPhase Ready, listener pair 0 registered. -/
def readyState : ViewerState := dispatch RendererEvent.load 0 mounted

/-- Two consecutive clicks on the animation button; the Renderer answers the first
forwarded command with first and the second with second. -/
def toggleTwice (first second : Bool) (s : ViewerState) : Outcome :=
  toggleAnimation second (toggleAnimation first s).state

/-! ## Runs of the component -/

/-- The info button of line 177: setShowInfo(!showInfo). -/
def toggleInfo (s : ViewerState) : ViewerState :=
  { s with showInfo := !s.showInfo }

/-- The button of line 199 that closes the info dialog: setShowInfo(false). -/
def closeInfo (s : ViewerState) : ViewerState :=
  { s with showInfo := false }

/-- Whether the loading overlay of lines 220-227 is rendered. -/
def loadingOverlayShown (s : ViewerState) : Bool := s.isLoading

/-- Whether the error overlay of lines 230-243 is rendered. -/
def errorOverlayShown (s : ViewerState) : Bool := s.modelError

/-- Everything that can happen to a component instance: its first commit, a click
on one of its buttons, or a Renderer event.  An event either goes through the
listener table (deliver) or is a plain call of handleLoad or handleError (handle). -/
inductive Action where
  | mount
  | select (modelName : ModelKey)
  | next
  | prev
  | retry
  | deliver (ev : RendererEvent) (attachment : Nat)
  | handle (ev : RendererEvent)
  | toggle (accepts : Bool)
  | reset (hasReset : Bool)
  | toggleInfo
  | closeInfo
deriving DecidableEq, Repr

/-- State after one action; keys is the key array the carousel arrows work on. -/
def step (keys : List String) (a : Action) (s : ViewerState) : ViewerState :=
  match a with
  | Action.mount => mount s
  | Action.select modelName => selectAsset modelName s
  | Action.next => nextModel keys s
  | Action.prev => prevModel keys s
  | Action.retry => retry s
  | Action.deliver ev attachment => dispatch ev attachment s
  | Action.handle RendererEvent.load => handleLoad s
  | Action.handle RendererEvent.error => handleError s
  | Action.toggle accepts => (toggleAnimation accepts s).state
  | Action.reset hasReset => (resetCamera hasReset s).state
  | Action.toggleInfo => toggleInfo s
  | Action.closeInfo => closeInfo s

/-- State after a sequence of actions, applied from left to right. -/
def run (keys : List String) (acts : List Action) (s : ViewerState) : ViewerState :=
  acts.foldl (fun st a => step keys a st) s

/-- Actions the rendered component can perform: its buttons call
handleModelSelect only with a key of the key array (the carousel buttons of lines
291-294 are made from the entries of models); every other action is unrestricted. -/
def fromUi (keys : List String) : Action → Prop
  | Action.select (some k) => k ∈ keys
  | Action.select none => False
  | _ => True

/-- The selected value is one of the keys. -/
def SelectedIn (keys : List String) (s : ViewerState) : Prop :=
  ∃ k, k ∈ keys ∧ s.selectedModel = some k

/-- The flags isLoading and modelError are not both set. -/
def FlagsExclusive (s : ViewerState) : Prop :=
  ¬ (s.isLoading = true ∧ s.modelError = true)

/-! ## Basic facts about selection and the listener effect -/

theorem selectAsset_selectedModel (k : ModelKey) (s : ViewerState) :
    (selectAsset k s).selectedModel = k := by
  unfold selectAsset afterRender runListenerEffect handleModelSelect
  dsimp only
  split_ifs <;> rfl

theorem selectAsset_flags (k : ModelKey) (s : ViewerState) :
    (selectAsset k s).isLoading = true ∧ (selectAsset k s).modelError = false ∧
    (selectAsset k s).isPlaying = s.isPlaying := by
  unfold selectAsset afterRender runListenerEffect handleModelSelect
  dsimp only
  split_ifs <;> exact ⟨rfl, rfl, rfl⟩

theorem selectAsset_same (s : ViewerState) :
    (selectAsset s.selectedModel s).listeners = s.listeners ∧
    (selectAsset s.selectedModel s).registrations = s.registrations := by
  unfold selectAsset afterRender handleModelSelect
  simp

theorem selectAsset_wellFormed (k : ModelKey) (s : ViewerState) (h : WellFormed s) :
    WellFormed (selectAsset k s) := by
  unfold WellFormed at *
  unfold selectAsset afterRender runListenerEffect handleModelSelect
  dsimp only
  split_ifs
  · exact h
  · intro g hg
    simp only [Option.some.injEq] at hg
    show g < s.registrations + 1
    omega
  · intro g hg
    cases hg

theorem selectAsset_other_listeners (k : ModelKey) (s : ViewerState) (g : Nat)
    (hk : s.selectedModel ≠ k) (hwf : WellFormed s) (hg : s.listeners = some g) :
    (selectAsset k s).listeners ≠ some g := by
  have hlt := hwf g hg
  unfold selectAsset afterRender runListenerEffect handleModelSelect
  dsimp only
  split_ifs with h1 h2
  · exact absurd h1.symm hk
  · intro h
    simp only [Option.some.injEq] at h
    omega
  · intro h
    cases h

theorem dispatch_unregistered (ev : RendererEvent) (g : Nat) (s : ViewerState)
    (h : s.listeners ≠ some g) : dispatch ev g s = s := by
  unfold dispatch
  rw [if_neg h]

theorem mounted_wellFormed : WellFormed mounted := by decide

theorem dispatch_wellFormed (ev : RendererEvent) (g : Nat) (s : ViewerState)
    (h : WellFormed s) : WellFormed (dispatch ev g s) := by
  unfold dispatch
  split_ifs
  · cases ev <;> exact h
  · exact h

theorem loadPhase_selectAsset (k : ModelKey) (s : ViewerState) :
    loadPhase (selectAsset k s) = some LoadPhase.Pending := by
  obtain ⟨h1, h2, _⟩ := selectAsset_flags k s
  unfold loadPhase
  rw [h1, h2]

/-! ## C1: events of a superseded attachment -/

/-- C1, as stated, fails when the same id is selected twice: selecting Horse and
then Horse again does not run the effect a second time, so the listener pair of
the first selection is still registered and its load event moves the state from
Pending to Ready. -/
theorem stale_event_same_id_applied :
    "Horse" ∈ modelKeys ∧
    (selectAsset (some "Horse") mounted).listeners = some 1 ∧
    loadPhase (selectAsset (some "Horse") (selectAsset (some "Horse") mounted))
      = some LoadPhase.Pending ∧
    dispatch RendererEvent.load 1 (selectAsset (some "Horse") (selectAsset (some "Horse") mounted))
      ≠ selectAsset (some "Horse") (selectAsset (some "Horse") mounted) ∧
    loadPhase (dispatch RendererEvent.load 1
      (selectAsset (some "Horse") (selectAsset (some "Horse") mounted)))
      = some LoadPhase.Ready := by
  decide

/-- C1, amended: for two different ids A and B and a well-formed state, after
selectAsset(A) then selectAsset(B) a load or error event addressed to the listener
pair of A leaves the whole state unchanged, and loadPhase is Pending with B
selected. -/
theorem stale_event_discarded (A B : ModelKey) (s : ViewerState) (g : Nat)
    (ev : RendererEvent) (hAB : A ≠ B) (hwf : WellFormed s)
    (hg : (selectAsset A s).listeners = some g) :
    dispatch ev g (selectAsset B (selectAsset A s)) = selectAsset B (selectAsset A s) ∧
    loadPhase (dispatch ev g (selectAsset B (selectAsset A s))) = some LoadPhase.Pending ∧
    (dispatch ev g (selectAsset B (selectAsset A s))).selectedModel = B := by
  have hsel : (selectAsset A s).selectedModel ≠ B := by
    rw [selectAsset_selectedModel]; exact hAB
  have hne := selectAsset_other_listeners B (selectAsset A s) g hsel
    (selectAsset_wellFormed A s hwf) hg
  have hd := dispatch_unregistered ev g _ hne
  rw [hd]
  exact ⟨rfl, loadPhase_selectAsset B _, selectAsset_selectedModel B _⟩

theorem stale_event_discarded_witness :
    dispatch RendererEvent.error 1
        (selectAsset (some "Horse") (selectAsset (some "RobotExpressive") mounted))
      = selectAsset (some "Horse") (selectAsset (some "RobotExpressive") mounted) ∧
    loadPhase (dispatch RendererEvent.error 1
        (selectAsset (some "Horse") (selectAsset (some "RobotExpressive") mounted)))
      = some LoadPhase.Pending ∧
    (dispatch RendererEvent.error 1
        (selectAsset (some "Horse") (selectAsset (some "RobotExpressive") mounted))).selectedModel
      = some "Horse" :=
  stale_event_discarded (some "RobotExpressive") (some "Horse") mounted 1 RendererEvent.error
    (by decide) (by decide) (by decide)

/-! ## C2: what a selection sets -/

/-- C2, as stated, fails on the animation phase: selecting Horse while isPlaying is
true leaves isPlaying true, so the animation phase is still Playing. -/
theorem select_keeps_playing :
    "Horse" ∈ modelKeys ∧
    animationPhase { mounted with isPlaying := true } = AnimationPhase.Playing ∧
    animationPhase (selectAsset (some "Horse") { mounted with isPlaying := true })
      = AnimationPhase.Playing := by
  decide

/-- C2, amended: for every id and every prior state, selectAsset(id) yields
selectedId = id and loadPhase = Pending, and leaves the animation phase as it was
before the call. -/
theorem select_sets_pending (k : ModelKey) (s : ViewerState) :
    (selectAsset k s).selectedModel = k ∧
    loadPhase (selectAsset k s) = some LoadPhase.Pending ∧
    animationPhase (selectAsset k s) = animationPhase s := by
  refine ⟨selectAsset_selectedModel k s, loadPhase_selectAsset k s, ?_⟩
  unfold animationPhase
  rw [(selectAsset_flags k s).2.2]

/-! ## C3: an id outside the registry -/

theorem models_find_none (id : String) (h : id ∉ modelKeys) :
    models.find? (fun e => e.1 == id) = none := by
  rw [List.find?_eq_none]
  intro e he heq
  apply h
  have hid : e.1 = id := by simpa using heq
  rw [← hid]
  exact List.mem_map_of_mem Prod.fst he

theorem currentModel_unknown (inheritedNames : List String) (id : String)
    (s : ViewerState) (h : id ∉ modelKeys) (hs : s.selectedModel = some id) :
    currentModel inheritedNames s =
      if id ∈ inheritedNames then ModelsProperty.inherited else ModelsProperty.undefined := by
  unfold currentModel
  rw [hs]
  simp only [propertyName, models_find_none id h]

theorem handleModelSelect_changes (k : ModelKey) (s : ViewerState)
    (hs : s.selectedModel ≠ k) : handleModelSelect k s ≠ s := by
  intro h
  apply hs
  have h2 : (handleModelSelect k s).selectedModel = s.selectedModel := by rw [h]
  exact h2.symm

theorem selectAndRender_of_render_ok (inheritedNames : List String) (k : ModelKey)
    (s : ViewerState) (v : View)
    (h : render inheritedNames (handleModelSelect k s) = Except.ok v) :
    selectAndRender inheritedNames k s = Except.ok (selectAsset k s) := by
  unfold selectAndRender selectAsset
  by_cases hsame : handleModelSelect k s = s
  · rw [if_pos hsame]
    have hsel : (handleModelSelect k s).selectedModel = s.selectedModel := by rw [hsame]
    unfold afterRender
    rw [if_pos hsel, hsame]
  · rw [if_neg hsame, h]

/-- C3, as stated, fails.  Cube is neither a key of models nor a name models
inherits.  handleModelSelect, seen as a function of its argument (no button of the
component passes Cube), writes the state cells, so the state differs from the one
before the call, and what fails is the render that follows, with a TypeError for
reading title of undefined. -/
theorem select_unknown_changes_state :
    "Cube" ∉ modelKeys ∧
    handleModelSelect (some "Cube") mounted ≠ mounted ∧
    (handleModelSelect (some "Cube") mounted).selectedModel = some "Cube" ∧
    selectAndRender objectPrototypeNames (some "Cube") mounted
      = Except.error (RenderError.typeError "title") := by
  refine ⟨by decide, by decide, by decide, ?_⟩
  rfl

/-- C3, amended: handleModelSelect has no registry check.  For every id that is
not a key of models and every state in which another value is selected, the call
writes the cells (selectedModel is the id, loadPhase is Pending, isPlaying is
unchanged), so the state is no longer the one before the call, and currentIndex of
the next render is -1.  If models does not inherit a property of that name either,
currentModel is undefined and the render throws a TypeError at the read of
currentModel.title; if it does, the render returns a view without title,
description, src and poster, and the selection is committed like any other. -/
theorem select_unknown_no_check (inheritedNames : List String) (id : String)
    (s : ViewerState) (hreg : id ∉ modelKeys) (hs : s.selectedModel ≠ some id) :
    handleModelSelect (some id) s ≠ s ∧
    (handleModelSelect (some id) s).selectedModel = some id ∧
    loadPhase (handleModelSelect (some id) s) = some LoadPhase.Pending ∧
    (handleModelSelect (some id) s).isPlaying = s.isPlaying ∧
    currentIndex modelKeys (handleModelSelect (some id) s).selectedModel = -1 ∧
    (id ∉ inheritedNames →
      currentModel inheritedNames (handleModelSelect (some id) s) = ModelsProperty.undefined ∧
      render inheritedNames (handleModelSelect (some id) s)
        = Except.error (RenderError.typeError "title") ∧
      selectAndRender inheritedNames (some id) s
        = Except.error (RenderError.typeError "title")) ∧
    (id ∈ inheritedNames →
      currentModel inheritedNames (handleModelSelect (some id) s) = ModelsProperty.inherited ∧
      render inheritedNames (handleModelSelect (some id) s)
        = Except.ok { title := none, description := none, src := none, poster := none } ∧
      selectAndRender inheritedNames (some id) s = Except.ok (selectAsset (some id) s)) := by
  have hne := handleModelSelect_changes (some id) s hs
  have hcm := currentModel_unknown inheritedNames id (handleModelSelect (some id) s) hreg rfl
  refine ⟨hne, rfl, rfl, rfl, ?_, ?_, ?_⟩
  · show currentIndex modelKeys (some id) = -1
    simp only [currentIndex, if_neg hreg]
  · intro hin
    rw [if_neg hin] at hcm
    have hr : render inheritedNames (handleModelSelect (some id) s)
        = Except.error (RenderError.typeError "title") := by
      unfold render
      rw [hcm]
    refine ⟨hcm, hr, ?_⟩
    unfold selectAndRender
    rw [if_neg hne, hr]
  · intro hin
    rw [if_pos hin] at hcm
    have hr : render inheritedNames (handleModelSelect (some id) s)
        = Except.ok { title := none, description := none, src := none, poster := none } := by
      unfold render
      rw [hcm]
    exact ⟨hcm, hr, selectAndRender_of_render_ok inheritedNames (some id) s _ hr⟩

theorem select_unknown_no_check_witness :
    (handleModelSelect (some "Cube") mounted ≠ mounted ∧
      selectAndRender objectPrototypeNames (some "Cube") mounted
        = Except.error (RenderError.typeError "title")) ∧
    (handleModelSelect (some "constructor") mounted ≠ mounted ∧
      selectAndRender objectPrototypeNames (some "constructor") mounted
        = Except.ok (selectAsset (some "constructor") mounted)) :=
  ⟨⟨(select_unknown_no_check objectPrototypeNames "Cube" mounted
        (by decide) (by decide)).1,
    ((select_unknown_no_check objectPrototypeNames "Cube" mounted
        (by decide) (by decide)).2.2.2.2.2.1 (by decide)).2.2⟩,
   ⟨(select_unknown_no_check objectPrototypeNames "constructor" mounted
        (by decide) (by decide)).1,
    ((select_unknown_no_check objectPrototypeNames "constructor" mounted
        (by decide) (by decide)).2.2.2.2.2.2 (by decide)).2.2⟩⟩

/-! ## C4: the events of the current attachment -/

/-- C4: in a state with loadPhase = Pending, the load event of the registered
listener pair yields Ready and its error event yields Failed; selectedModel and
isPlaying are unchanged in both cases. -/
theorem current_event_applied (s : ViewerState) (g : Nat)
    (hg : s.listeners = some g) (hp : loadPhase s = some LoadPhase.Pending) :
    loadPhase (dispatch RendererEvent.load g s) = some LoadPhase.Ready ∧
    (dispatch RendererEvent.load g s).isLoading = false ∧
    (dispatch RendererEvent.load g s).modelError = false ∧
    (dispatch RendererEvent.load g s).selectedModel = s.selectedModel ∧
    animationPhase (dispatch RendererEvent.load g s) = animationPhase s ∧
    loadPhase (dispatch RendererEvent.error g s) = some LoadPhase.Failed ∧
    (dispatch RendererEvent.error g s).isLoading = false ∧
    (dispatch RendererEvent.error g s).modelError = true ∧
    (dispatch RendererEvent.error g s).selectedModel = s.selectedModel ∧
    animationPhase (dispatch RendererEvent.error g s) = animationPhase s := by
  have _hp := hp
  unfold dispatch
  rw [if_pos hg, if_pos hg]
  simp [handleLoad, handleError, loadPhase, animationPhase]

theorem current_event_applied_witness :
    loadPhase (dispatch RendererEvent.load 0 mounted) = some LoadPhase.Ready ∧
    (dispatch RendererEvent.load 0 mounted).isLoading = false ∧
    (dispatch RendererEvent.load 0 mounted).modelError = false ∧
    (dispatch RendererEvent.load 0 mounted).selectedModel = mounted.selectedModel ∧
    animationPhase (dispatch RendererEvent.load 0 mounted) = animationPhase mounted ∧
    loadPhase (dispatch RendererEvent.error 0 mounted) = some LoadPhase.Failed ∧
    (dispatch RendererEvent.error 0 mounted).isLoading = false ∧
    (dispatch RendererEvent.error 0 mounted).modelError = true ∧
    (dispatch RendererEvent.error 0 mounted).selectedModel = mounted.selectedModel ∧
    animationPhase (dispatch RendererEvent.error 0 mounted) = animationPhase mounted :=
  current_event_applied mounted 0 (by decide) (by decide)

/-! ## C5, C6: the carousel as index arithmetic -/

theorem currentIndex_of_mem (keys : List String) (id : String) (hid : id ∈ keys) :
    currentIndex keys (some id) = (List.indexOf id keys : Int) := by
  simp only [currentIndex, if_pos hid]

theorem currentIndex_getElem (keys : List String) (hnd : keys.Nodup) (i : Nat)
    (hi : i < keys.length) : currentIndex keys keys[i]? = (i : Int) := by
  rw [List.getElem?_eq_getElem hi, currentIndex_of_mem keys _ (List.getElem_mem hi),
    List.indexOf_getElem hnd i hi]

theorem keyAt_natCast (keys : List String) (m : Nat) : keyAt keys (m : Int) = keys[m]? := by
  simp [keyAt]

theorem nextIndex_getElem (keys : List String) (hnd : keys.Nodup) (i : Nat)
    (hi : i < keys.length) :
    nextIndex keys keys[i]? = (((i + 1) % keys.length : Nat) : Int) := by
  unfold nextIndex
  rw [currentIndex_getElem keys hnd i hi, Int.ofNat_tmod]
  rfl

theorem prevIndex_getElem (keys : List String) (hnd : keys.Nodup) (i : Nat)
    (hi : i < keys.length) :
    prevIndex keys keys[i]? = ((if i = 0 then keys.length - 1 else i - 1 : Nat) : Int) := by
  unfold prevIndex
  rw [currentIndex_getElem keys hnd i hi]
  by_cases h0 : i = 0
  · subst h0
    simp only [if_true, Nat.cast_zero]
    omega
  · have hz : ¬ ((i : Int) = 0) := by omega
    rw [if_neg hz, if_neg h0]
    omega

theorem nextModel_getElem (keys : List String) (hnd : keys.Nodup) (i : Nat)
    (hi : i < keys.length) (s : ViewerState) (hs : s.selectedModel = keys[i]?) :
    (nextModel keys s).selectedModel = keys[(i + 1) % keys.length]? := by
  unfold nextModel
  rw [selectAsset_selectedModel, hs, nextIndex_getElem keys hnd i hi, keyAt_natCast]

theorem prevModel_getElem (keys : List String) (hnd : keys.Nodup) (i : Nat)
    (hi : i < keys.length) (s : ViewerState) (hs : s.selectedModel = keys[i]?) :
    (prevModel keys s).selectedModel = keys[if i = 0 then keys.length - 1 else i - 1]? := by
  unfold prevModel
  rw [selectAsset_selectedModel, hs, prevIndex_getElem keys hnd i hi, keyAt_natCast]

theorem succ_mod_lt (n i : Nat) (hi : i < n) : (i + 1) % n < n :=
  Nat.mod_lt _ (by omega)

theorem pred_wrap_lt (n i : Nat) (hi : i < n) : (if i = 0 then n - 1 else i - 1) < n := by
  split_ifs <;> omega

theorem pred_wrap_succ_mod (n i : Nat) (hi : i < n) :
    (if (i + 1) % n = 0 then n - 1 else (i + 1) % n - 1) = i := by
  by_cases h : i + 1 < n
  · rw [Nat.mod_eq_of_lt h]
    simp
  · have hn : i + 1 = n := by omega
    rw [hn, Nat.mod_self]
    simp
    omega

theorem succ_mod_pred_wrap (n i : Nat) (hi : i < n) :
    ((if i = 0 then n - 1 else i - 1) + 1) % n = i := by
  by_cases h0 : i = 0
  · subst h0
    rw [if_pos rfl]
    have : n - 1 + 1 = n := by omega
    rw [this, Nat.mod_self]
  · rw [if_neg h0]
    have : i - 1 + 1 = i := by omega
    rw [this, Nat.mod_eq_of_lt hi]

theorem iterate_nextModel_getElem (keys : List String) (hnd : keys.Nodup) (k : Nat) :
    ∀ (i : Nat) (s : ViewerState), i < keys.length → s.selectedModel = keys[i]? →
      (Nat.iterate (nextModel keys) k s).selectedModel = keys[(i + k) % keys.length]? := by
  induction k with
  | zero =>
    intro i s hi hs
    simp only [Nat.iterate, Nat.add_zero, Nat.mod_eq_of_lt hi]
    exact hs
  | succ k ih =>
    intro i s hi hs
    have hstep := nextModel_getElem keys hnd i hi s hs
    have h := ih ((i + 1) % keys.length) (nextModel keys s) (succ_mod_lt _ i hi) hstep
    simp only [Nat.iterate]
    rw [h, Nat.mod_add_mod]
    congr 2
    omega

theorem add_mod_ne_self (n i k : Nat) (hi : i < n) (h0 : 0 < k) (hk : k < n) :
    (i + k) % n ≠ i := by
  by_cases h : i + k < n
  · rw [Nat.mod_eq_of_lt h]
    omega
  · have hge : n ≤ i + k := by omega
    rw [Nat.mod_eq_sub_mod hge, Nat.mod_eq_of_lt (by omega)]
    omega

theorem exists_add_mod_eq (n i j : Nat) (hi : i < n) (hj : j < n) :
    ∃ k, k < n ∧ (i + k) % n = j := by
  by_cases h : i ≤ j
  · refine ⟨j - i, by omega, ?_⟩
    have : i + (j - i) = j := by omega
    rw [this, Nat.mod_eq_of_lt hj]
  · refine ⟨j + n - i, by omega, ?_⟩
    have hge : n ≤ i + (j + n - i) := by omega
    rw [Nat.mod_eq_sub_mod hge]
    have : i + (j + n - i) - n = j := by omega
    rw [this, Nat.mod_eq_of_lt hj]

theorem getElem_index_unique (keys : List String) (hnd : keys.Nodup) (i j : Nat)
    (hi : i < keys.length) (hj : j < keys.length) (h : keys[j]? = keys[i]?) : j = i := by
  rw [List.getElem?_eq_getElem hi, List.getElem?_eq_getElem hj] at h
  exact (hnd.getElem_inj_iff).1 (Option.some.inj h)

/-- C5: for a key array without repetition and an id in it, with that id selected,
prevModel after nextModel and nextModel after prevModel both select the id again,
at the ends of the array as well. -/
theorem next_prev_inverse (keys : List String) (id : String) (s : ViewerState)
    (hnd : keys.Nodup) (hid : id ∈ keys) (hs : s.selectedModel = some id) :
    (prevModel keys (nextModel keys s)).selectedModel = some id ∧
    (nextModel keys (prevModel keys s)).selectedModel = some id := by
  obtain ⟨i, hi, hget⟩ := List.getElem_of_mem hid
  have hs1 : s.selectedModel = keys[i]? := by
    rw [hs, List.getElem?_eq_getElem hi, hget]
  have hid1 : some id = keys[i]? := by rw [← hs, hs1]
  constructor
  · have h1 := nextModel_getElem keys hnd i hi s hs1
    have h2 := prevModel_getElem keys hnd _ (succ_mod_lt _ i hi) _ h1
    rw [h2, pred_wrap_succ_mod _ i hi, hid1]
  · have h1 := prevModel_getElem keys hnd i hi s hs1
    have h2 := nextModel_getElem keys hnd _ (pred_wrap_lt _ i hi) _ h1
    rw [h2, succ_mod_pred_wrap _ i hi, hid1]

theorem next_prev_inverse_witness :
    (prevModel modelKeys (nextModel modelKeys
      (selectAsset (some "Horse") mounted))).selectedModel = some "Horse" ∧
    (nextModel modelKeys (prevModel modelKeys
      (selectAsset (some "Horse") mounted))).selectedModel = some "Horse" :=
  next_prev_inverse modelKeys "Horse" (selectAsset (some "Horse") mounted)
    (by decide) (by decide) (by decide)

/-- C6: for a key array of n entries without repetition and an id in it, with that
id selected, n applications of nextModel select the id again, no smaller positive
number of applications does, and every key is selected after fewer than n
applications. -/
theorem next_cycles_once (keys : List String) (id : String) (s : ViewerState)
    (hnd : keys.Nodup) (hid : id ∈ keys) (hs : s.selectedModel = some id) :
    (Nat.iterate (nextModel keys) keys.length s).selectedModel = some id ∧
    (∀ k, 0 < k → k < keys.length →
      (Nat.iterate (nextModel keys) k s).selectedModel ≠ some id) ∧
    (∀ x ∈ keys, ∃ k, k < keys.length ∧
      (Nat.iterate (nextModel keys) k s).selectedModel = some x) := by
  obtain ⟨i, hi, hget⟩ := List.getElem_of_mem hid
  have hs1 : s.selectedModel = keys[i]? := by
    rw [hs, List.getElem?_eq_getElem hi, hget]
  have hid1 : some id = keys[i]? := by rw [← hs, hs1]
  refine ⟨?_, ?_, ?_⟩
  · rw [iterate_nextModel_getElem keys hnd _ i s hi hs1, Nat.add_mod_right,
      Nat.mod_eq_of_lt hi, hid1]
  · intro k h0 hk
    rw [iterate_nextModel_getElem keys hnd k i s hi hs1, hid1]
    intro heq
    exact add_mod_ne_self _ i k hi h0 hk
      (getElem_index_unique keys hnd i _ hi (Nat.mod_lt _ (by omega)) heq)
  · intro x hx
    obtain ⟨j, hj, hxj⟩ := List.getElem_of_mem hx
    obtain ⟨k, hk, hkj⟩ := exists_add_mod_eq _ i j hi hj
    refine ⟨k, hk, ?_⟩
    rw [iterate_nextModel_getElem keys hnd k i s hi hs1, hkj,
      List.getElem?_eq_getElem hj, hxj]

theorem next_cycles_once_witness :
    (Nat.iterate (nextModel modelKeys) modelKeys.length mounted).selectedModel
      = some "Astronaut" ∧
    (∀ k, 0 < k → k < modelKeys.length →
      (Nat.iterate (nextModel modelKeys) k mounted).selectedModel ≠ some "Astronaut") ∧
    (∀ x ∈ modelKeys, ∃ k, k < modelKeys.length ∧
      (Nat.iterate (nextModel modelKeys) k mounted).selectedModel = some x) :=
  next_cycles_once modelKeys "Astronaut" mounted (by decide) (by decide) (by decide)

/-! ## C7: the Retry button -/

theorem retry_keeps_registration (s : ViewerState) :
    (retry s).listeners = s.listeners ∧ (retry s).registrations = s.registrations :=
  selectAsset_same s

/-- C7, evaluated on the code: in the Failed state, retry is selectAsset of the
selected id and yields Pending with the same id, but selectedModel does not change,
so the effect does not run and no listener pair is registered anew, whereas
selecting another id from the same state registers one. -/
theorem retry_registers_nothing :
    loadPhase failedState = some LoadPhase.Failed ∧
    retry failedState = selectAsset failedState.selectedModel failedState ∧
    loadPhase (retry failedState) = some LoadPhase.Pending ∧
    (retry failedState).selectedModel = failedState.selectedModel ∧
    (retry failedState).registrations = failedState.registrations ∧
    (retry failedState).listeners = failedState.listeners ∧
    (selectAsset (some "Horse") failedState).registrations = failedState.registrations + 1 := by
  decide

/-! ## C8, C9, C10: toggleAnimation -/

/-- C8, as stated, fails: in the Ready state with the viewer attached and the
animation Stopped, a rejected play command is swallowed but the animation phase is
still Stopped afterwards. -/
theorem rejected_toggle_does_not_flip :
    loadPhase readyState = some LoadPhase.Ready ∧
    readyState.viewer = true ∧
    animationPhase readyState = AnimationPhase.Stopped ∧
    (toggleAnimation false readyState).forwarded = [RendererCommand.play] ∧
    animationPhase (toggleAnimation false readyState).state = AnimationPhase.Stopped := by
  decide

/-- C8, amended: with a viewer attached, when the Renderer throws on the forwarded
play or pause command, toggleAnimation catches the exception, logs one line, and
leaves the whole state, so also the animation phase, as it was. -/
theorem rejected_toggle_swallowed (s : ViewerState) (hv : s.viewer = true) :
    (toggleAnimation false s).state = s ∧
    animationPhase (toggleAnimation false s).state = animationPhase s ∧
    (toggleAnimation false s).forwarded
      = [if s.isPlaying then RendererCommand.pause else RendererCommand.play] ∧
    (toggleAnimation false s).console = ["Animation control not available"] := by
  simp [toggleAnimation, rendererCall, hv, bind, Except.bind]

theorem rejected_toggle_swallowed_witness :
    (toggleAnimation false readyState).state = readyState ∧
    animationPhase (toggleAnimation false readyState).state = animationPhase readyState ∧
    (toggleAnimation false readyState).forwarded
      = [if readyState.isPlaying then RendererCommand.pause else RendererCommand.play] ∧
    (toggleAnimation false readyState).console = ["Animation control not available"] :=
  rejected_toggle_swallowed readyState (by decide)

/-- C9, as stated, fails when the Renderer accepts one command and rejects the
other: from Ready and Stopped, an accepted play followed by a rejected pause ends
in Playing, and a rejected play followed by an accepted play ends in Playing. -/
theorem mixed_toggles_do_not_restore :
    loadPhase readyState = some LoadPhase.Ready ∧
    animationPhase readyState = AnimationPhase.Stopped ∧
    animationPhase (toggleTwice true false readyState).state = AnimationPhase.Playing ∧
    animationPhase (toggleTwice false true readyState).state = AnimationPhase.Playing := by
  decide

/-- C9, amended: when the Renderer gives the same answer to both forwarded
commands (accepts both or rejects both), two consecutive toggleAnimation calls
return the whole state, so the animation phase, selectedModel and the load flags,
to what it was before the calls. -/
theorem same_answer_toggles_restore (answer : Bool) (s : ViewerState) :
    (toggleTwice answer answer s).state = s ∧
    animationPhase (toggleTwice answer answer s).state = animationPhase s ∧
    (toggleTwice answer answer s).state.selectedModel = s.selectedModel ∧
    loadPhase (toggleTwice answer answer s).state = loadPhase s := by
  have h : (toggleTwice answer answer s).state = s := by
    obtain ⟨sel, l, p, i, e, v, ls, r⟩ := s
    cases answer <;> cases v <;>
      simp [toggleTwice, toggleAnimation, rendererCall, bind, Except.bind, pure, Except.pure]
  rw [h]
  exact ⟨rfl, rfl, rfl, rfl⟩

/-- C10, as stated, fails: right after mounting loadPhase is Pending, yet
toggleAnimation forwards play to the attached viewer and the animation phase
becomes Playing; the same happens in the Failed state. -/
theorem toggle_runs_while_pending :
    loadPhase mounted = some LoadPhase.Pending ∧
    (toggleAnimation true mounted).forwarded = [RendererCommand.play] ∧
    animationPhase mounted = AnimationPhase.Stopped ∧
    animationPhase (toggleAnimation true mounted).state = AnimationPhase.Playing ∧
    loadPhase failedState = some LoadPhase.Failed ∧
    (toggleAnimation true failedState).forwarded = [RendererCommand.play] ∧
    animationPhase (toggleAnimation true failedState).state = AnimationPhase.Playing := by
  decide

/-- C10, amended: toggleAnimation is a no-op in a state without a viewer element,
whatever the load phase: it forwards nothing, logs nothing and returns the state
unchanged; the load flags are never consulted, so changing them changes neither
the forwarded commands nor the resulting isPlaying. -/
theorem toggle_noop_without_viewer (accepts : Bool) (s : ViewerState)
    (hv : s.viewer = false) :
    toggleAnimation accepts s = { state := s, forwarded := [], console := [] } ∧
    (∀ (t : ViewerState) (l e : Bool),
      (toggleAnimation accepts { t with isLoading := l, modelError := e }).forwarded
        = (toggleAnimation accepts t).forwarded ∧
      (toggleAnimation accepts { t with isLoading := l, modelError := e }).state.isPlaying
        = (toggleAnimation accepts t).state.isPlaying) := by
  constructor
  · simp [toggleAnimation, hv]
  · intro t l e
    cases accepts <;> cases ht : t.viewer <;>
      simp [toggleAnimation, rendererCall, ht, bind, Except.bind, pure, Except.pure]

theorem toggle_noop_without_viewer_witness :
    toggleAnimation true initialState
      = { state := initialState, forwarded := [], console := [] } ∧
    (∀ (t : ViewerState) (l e : Bool),
      (toggleAnimation true { t with isLoading := l, modelError := e }).forwarded
        = (toggleAnimation true t).forwarded ∧
      (toggleAnimation true { t with isLoading := l, modelError := e }).state.isPlaying
        = (toggleAnimation true t).state.isPlaying) :=
  toggle_noop_without_viewer true initialState (by decide)

/-! ## C11: the two load flags are never both set -/

theorem runListenerEffect_flags (s : ViewerState) :
    (runListenerEffect s).isLoading = s.isLoading ∧
    (runListenerEffect s).modelError = s.modelError := by
  unfold runListenerEffect
  dsimp only
  split_ifs <;> exact ⟨rfl, rfl⟩

theorem toggleAnimation_flags (accepts : Bool) (s : ViewerState) :
    (toggleAnimation accepts s).state.isLoading = s.isLoading ∧
    (toggleAnimation accepts s).state.modelError = s.modelError := by
  cases accepts <;> cases hv : s.viewer <;>
    simp [toggleAnimation, rendererCall, hv, bind, Except.bind, pure, Except.pure]

theorem resetCamera_state (hasReset : Bool) (s : ViewerState) :
    (resetCamera hasReset s).state = s := by
  unfold resetCamera
  split_ifs <;> rfl

theorem selectAsset_flagsExclusive (k : ModelKey) (s : ViewerState) :
    FlagsExclusive (selectAsset k s) := by
  intro h
  rw [(selectAsset_flags k s).2.1] at h
  exact Bool.false_ne_true h.2

theorem handleLoad_flagsExclusive (s : ViewerState) : FlagsExclusive (handleLoad s) := by
  intro h
  exact Bool.false_ne_true h.1

theorem handleError_flagsExclusive (s : ViewerState) : FlagsExclusive (handleError s) := by
  intro h
  exact Bool.false_ne_true h.1

theorem step_flagsExclusive (keys : List String) (a : Action) (s : ViewerState)
    (h : FlagsExclusive s) : FlagsExclusive (step keys a s) := by
  cases a with
  | mount =>
    unfold FlagsExclusive step mount
    rw [(runListenerEffect_flags _).1, (runListenerEffect_flags _).2]
    exact h
  | select modelName => exact selectAsset_flagsExclusive modelName s
  | next => exact selectAsset_flagsExclusive _ s
  | prev => exact selectAsset_flagsExclusive _ s
  | retry => exact selectAsset_flagsExclusive _ s
  | deliver ev attachment =>
    unfold step dispatch
    dsimp only
    split_ifs
    · cases ev
      · exact handleLoad_flagsExclusive s
      · exact handleError_flagsExclusive s
    · exact h
  | handle ev =>
    cases ev
    · exact handleLoad_flagsExclusive s
    · exact handleError_flagsExclusive s
  | toggle accepts =>
    unfold FlagsExclusive step
    dsimp only
    rw [(toggleAnimation_flags accepts s).1, (toggleAnimation_flags accepts s).2]
    exact h
  | reset hasReset =>
    unfold step
    dsimp only
    rw [resetCamera_state]
    exact h
  | toggleInfo => exact h
  | closeInfo => exact h

theorem run_flagsExclusive (keys : List String) (acts : List Action) :
    ∀ s, FlagsExclusive s → FlagsExclusive (run keys acts s) := by
  induction acts with
  | nil => intro s h; exact h
  | cons a rest ih =>
    intro s h
    exact ih (step keys a s) (step_flagsExclusive keys a s h)

theorem loadPhase_of_flagsExclusive (s : ViewerState) (h : FlagsExclusive s) :
    ∃ p, loadPhase s = some p := by
  unfold FlagsExclusive at h
  unfold loadPhase
  cases hl : s.isLoading <;> cases he : s.modelError
  · exact ⟨LoadPhase.Ready, rfl⟩
  · exact ⟨LoadPhase.Failed, rfl⟩
  · exact ⟨LoadPhase.Pending, rfl⟩
  · exact absurd ⟨hl, he⟩ h

theorem run_reaches_each_phase :
    loadPhase (run modelKeys [Action.mount] initialState) = some LoadPhase.Pending ∧
    loadPhase (run modelKeys [Action.mount, Action.deliver RendererEvent.load 0] initialState)
      = some LoadPhase.Ready ∧
    loadPhase (run modelKeys [Action.mount, Action.next, Action.deliver RendererEvent.error 1]
      initialState) = some LoadPhase.Failed ∧
    loadPhase (run modelKeys [Action.mount, Action.deliver RendererEvent.error 0, Action.retry]
      initialState) = some LoadPhase.Pending := by
  decide

/-- C11: in every state reached from the initial state by any sequence of the
first commit, handleModelSelect, nextModel, prevModel, retry, handleLoad,
handleError (delivered through the listeners or called directly), toggleAnimation,
resetCamera and the info buttons, the flags isLoading and modelError are not both
true; the flags therefore encode one of Pending, Ready, Failed, and the loading
overlay and the error overlay are not rendered together. -/
theorem flags_never_both (keys : List String) (acts : List Action) :
    ¬ ((run keys acts initialState).isLoading = true ∧
       (run keys acts initialState).modelError = true) ∧
    (∃ p, loadPhase (run keys acts initialState) = some p) ∧
    ¬ (loadingOverlayShown (run keys acts initialState) = true ∧
       errorOverlayShown (run keys acts initialState) = true) := by
  have h0 : FlagsExclusive initialState := by
    intro h
    exact Bool.false_ne_true h.2
  have h := run_flagsExclusive keys acts initialState h0
  exact ⟨h, loadPhase_of_flagsExclusive _ h, h⟩

/-! ## Reached states select a key of the registry

No button of the component passes handleModelSelect anything but a key of models,
so the selection of an unknown id treated under C3 does not arise in a run of the
component, and every render of a reached state finds its descriptor. -/

theorem runListenerEffect_selectedModel (s : ViewerState) :
    (runListenerEffect s).selectedModel = s.selectedModel := by
  unfold runListenerEffect
  dsimp only
  split_ifs <;> rfl

theorem dispatch_selectedModel (ev : RendererEvent) (g : Nat) (s : ViewerState) :
    (dispatch ev g s).selectedModel = s.selectedModel := by
  unfold dispatch
  split_ifs
  · cases ev <;> rfl
  · rfl

theorem toggleAnimation_selectedModel (accepts : Bool) (s : ViewerState) :
    (toggleAnimation accepts s).state.selectedModel = s.selectedModel := by
  cases accepts <;> cases hv : s.viewer <;>
    simp [toggleAnimation, rendererCall, hv, bind, Except.bind, pure, Except.pure]

theorem nextModel_selectedIn (keys : List String) (hnd : keys.Nodup) (s : ViewerState)
    (h : SelectedIn keys s) : SelectedIn keys (nextModel keys s) := by
  obtain ⟨k, hk, hs⟩ := h
  obtain ⟨i, hi, hget⟩ := List.getElem_of_mem hk
  have hs1 : s.selectedModel = keys[i]? := by
    rw [hs, List.getElem?_eq_getElem hi, hget]
  have hlt := succ_mod_lt keys.length i hi
  refine ⟨keys[(i + 1) % keys.length], List.getElem_mem hlt, ?_⟩
  rw [nextModel_getElem keys hnd i hi s hs1, List.getElem?_eq_getElem hlt]

theorem prevModel_selectedIn (keys : List String) (hnd : keys.Nodup) (s : ViewerState)
    (h : SelectedIn keys s) : SelectedIn keys (prevModel keys s) := by
  obtain ⟨k, hk, hs⟩ := h
  obtain ⟨i, hi, hget⟩ := List.getElem_of_mem hk
  have hs1 : s.selectedModel = keys[i]? := by
    rw [hs, List.getElem?_eq_getElem hi, hget]
  have hlt := pred_wrap_lt keys.length i hi
  refine ⟨keys[if i = 0 then keys.length - 1 else i - 1], List.getElem_mem hlt, ?_⟩
  rw [prevModel_getElem keys hnd i hi s hs1, List.getElem?_eq_getElem hlt]

theorem step_selectedIn (keys : List String) (hnd : keys.Nodup) (a : Action)
    (s : ViewerState) (ha : fromUi keys a) (h : SelectedIn keys s) :
    SelectedIn keys (step keys a s) := by
  cases a with
  | mount =>
    obtain ⟨k, hk, hs⟩ := h
    exact ⟨k, hk, by
      show (runListenerEffect _).selectedModel = some k
      rw [runListenerEffect_selectedModel]
      exact hs⟩
  | select modelName =>
    cases modelName with
    | none => exact absurd ha (by simp [fromUi])
    | some k => exact ⟨k, ha, selectAsset_selectedModel (some k) s⟩
  | next => exact nextModel_selectedIn keys hnd s h
  | prev => exact prevModel_selectedIn keys hnd s h
  | retry =>
    obtain ⟨k, hk, hs⟩ := h
    exact ⟨k, hk, by
      show (selectAsset s.selectedModel s).selectedModel = some k
      rw [selectAsset_selectedModel]
      exact hs⟩
  | deliver ev attachment =>
    obtain ⟨k, hk, hs⟩ := h
    exact ⟨k, hk, by
      show (dispatch ev attachment s).selectedModel = some k
      rw [dispatch_selectedModel]
      exact hs⟩
  | handle ev =>
    obtain ⟨k, hk, hs⟩ := h
    cases ev <;> exact ⟨k, hk, hs⟩
  | toggle accepts =>
    obtain ⟨k, hk, hs⟩ := h
    exact ⟨k, hk, by
      show (toggleAnimation accepts s).state.selectedModel = some k
      rw [toggleAnimation_selectedModel]
      exact hs⟩
  | reset hasReset =>
    obtain ⟨k, hk, hs⟩ := h
    exact ⟨k, hk, by
      show (resetCamera hasReset s).state.selectedModel = some k
      rw [resetCamera_state]
      exact hs⟩
  | toggleInfo => exact h
  | closeInfo => exact h

theorem run_selectedIn (keys : List String) (hnd : keys.Nodup) (acts : List Action) :
    ∀ s, (∀ a ∈ acts, fromUi keys a) → SelectedIn keys s → SelectedIn keys (run keys acts s) := by
  induction acts with
  | nil => intro s _ h; exact h
  | cons a rest ih =>
    intro s hall h
    exact ih (step keys a s)
      (fun b hb => hall b (List.mem_cons_of_mem a hb))
      (step_selectedIn keys hnd a s (hall a (List.mem_cons_self a rest)) h)

theorem render_of_selectedIn (inheritedNames : List String) (s : ViewerState)
    (h : SelectedIn modelKeys s) :
    ∃ d, currentModel inheritedNames s = ModelsProperty.descriptor d ∧
      render inheritedNames s = Except.ok
        { title := some d.title, description := some d.description,
          src := some d.model, poster := some d.poster } := by
  obtain ⟨k, hk, hs⟩ := h
  have hcases : k = "Astronaut" ∨ k = "RobotExpressive" ∨ k = "Horse" := by
    simpa [modelKeys, models] using hk
  have hcm : ∃ d, currentModel inheritedNames s = ModelsProperty.descriptor d := by
    unfold currentModel
    rw [hs]
    rcases hcases with h1 | h1 | h1 <;> subst h1 <;> exact ⟨_, rfl⟩
  obtain ⟨d, hd⟩ := hcm
  refine ⟨d, hd, ?_⟩
  unfold render
  rw [hd]

theorem ui_run_selects_registry_key (inheritedNames : List String) (acts : List Action)
    (h : ∀ a ∈ acts, fromUi modelKeys a) :
    SelectedIn modelKeys (run modelKeys acts initialState) ∧
    ∃ v, render inheritedNames (run modelKeys acts initialState) = Except.ok v := by
  have hsel := run_selectedIn modelKeys (by decide) acts initialState h
    ⟨"Astronaut", by decide, rfl⟩
  obtain ⟨d, _, hr⟩ := render_of_selectedIn inheritedNames _ hsel
  exact ⟨hsel, _, hr⟩

end Viewify
